import Mathlib

/-!
Shallow embedding of the AudioFlinger playback/record engine
(src/libs/audioflinger/AudioFlinger.cpp) used to check the claims of the
natural-language specification against the code.

Conventions:
* `uint32_t` cursors of the shared control block are modelled as `Nat`.
  The spec (§3) states that the cursor width is chosen so that natural wrap
  is indistinguishable from monotone increase within a buffer's lifetime,
  so within the regimes the claims speak about no modular reduction occurs.
* `int8_t mRetryCount` is modelled as `Int`; all reachable values on the
  modelled paths stay within `[-1, 127]`, far from the int8 wrap point.
* Fields and helper functions keep the names of the C++ source wherever
  Lean allows it.  Definitions taken from files that are not part of this
  repository snapshot (AudioFlinger.h inline predicates, AudioSystem.h
  constants, audio_track_cblk_t methods) carry a doc comment starting with
  `Modelled from the spec:`.
-/

namespace AudioFlingerModel

/-- status_t values used by the modelled paths of AudioFlinger.cpp. -/
inductive Status where
  | NO_ERROR
  | BAD_VALUE
  | NO_INIT
  | NO_MEMORY
  | NOT_ENOUGH_DATA
  | PERMISSION_DENIED
  | ALREADY_EXISTS
deriving DecidableEq, Repr

/-- Track states used by AudioFlinger.cpp (TrackBase::track_state).
The enum itself lives in AudioFlinger.h, which is not in the snapshot; the
constructor set is exactly the set of states referenced by the .cpp and by
the spec's §4.2 state machine. -/
inductive TrackState where
  | IDLE
  | TERMINATED
  | STOPPED
  | RESUMING
  | ACTIVE
  | PAUSING
  | PAUSED
deriving DecidableEq, Repr

/-- Fill-up states of a playback track (Track::FS_FILLING / FS_FILLED /
FS_ACTIVE as used by AudioFlinger.cpp). -/
inductive FillStatus where
  | FS_FILLING
  | FS_FILLED
  | FS_ACTIVE
deriving DecidableEq, Repr

/-- The fields of audio_track_cblk_t that the modelled code paths read or
write (spec §3).  Cursors are `Nat`, flags are `Bool`. -/
structure AudioCblk where
  frameCount : Nat
  user : Nat
  userBase : Nat
  server : Nat
  serverBase : Nat
  loopEnd : Nat
  forceReady : Bool
  flowControlFlag : Bool
  frameSize : Nat
deriving DecidableEq, Repr

/-- Modelled from the spec: audio_track_cblk_t::framesReady lives in the
shared-control-block implementation, which is not part of this repository
snapshot.  Spec §3: "For playback: frames ready = user − server". -/
def AudioCblk.framesReady (c : AudioCblk) : Nat :=
  c.user - c.server

/-- The per-track server-side state the modelled code paths touch
(AudioFlinger::PlaybackThread::Track and its TrackBase part). -/
structure Track where
  state : TrackState
  fillingUpStatus : FillStatus
  cblk : AudioCblk
  retryCount : Int
  resetDone : Bool
  stepServerFailed : Bool
  sharedBuffer : Bool
  trackMute : Bool
  bufferSizeBytes : Nat
deriving DecidableEq, Repr

/-- Modelled from the spec: Track::isStopped is an inline predicate of
AudioFlinger.h (not in the snapshot); it holds in state STOPPED (§4.2). -/
def Track.isStopped (t : Track) : Bool :=
  t.state == TrackState.STOPPED

/-- Modelled from the spec: Track::isPaused holds in state PAUSED (§4.2;
PAUSING is reported separately by isPausing). -/
def Track.isPaused (t : Track) : Bool :=
  t.state == TrackState.PAUSED

/-- Modelled from the spec: Track::isPausing holds in state PAUSING (§4.2). -/
def Track.isPausing (t : Track) : Bool :=
  t.state == TrackState.PAUSING

/-- Modelled from the spec: Track::isTerminated holds in state TERMINATED. -/
def Track.isTerminated (t : Track) : Bool :=
  t.state == TrackState.TERMINATED

/-- Track::isMuted (AudioFlinger.h inline over the mMute field set by
Track::mute, AudioFlinger.cpp line 2342). -/
def Track.isMuted (t : Track) : Bool :=
  t.trackMute

/-- AudioFlinger::PlaybackThread::Track::isReady, AudioFlinger.cpp
lines 2248-2258.  The C++ method is `const` but mutates the mutable fields
mFillingUpStatus and cblk->forceReady, so the model returns the updated
track together with the boolean result. -/
def Track.isReadyRun (t : Track) : Bool × Track :=
  if t.fillingUpStatus ≠ FillStatus.FS_FILLING then (true, t)
  else if t.cblk.framesReady ≥ t.cblk.frameCount || t.cblk.forceReady then
    (true, { t with fillingUpStatus := FillStatus.FS_FILLED,
                    cblk := { t.cblk with forceReady := false } })
  else (false, t)

/-- The per-track gate of AudioFlinger::MixerThread::prepareTracks_l,
AudioFlinger.cpp lines 1288-1289:
`cblk->framesReady() && (track->isReady() || track->isStopped()) &&
 !track->isPaused()`, with C short-circuit evaluation order (isReady's
side effect happens only when framesReady() is non-zero, and persists even
if the track then turns out to be paused). -/
def Track.prepareCondition (t : Track) : Bool × Track :=
  if t.cblk.framesReady == 0 then (false, t)
  else
    let p := t.isReadyRun
    if p.1 || p.2.isStopped then (!p.2.isPaused, p.2)
    else (false, p.2)

/-- AudioFlinger::PlaybackThread::TrackBase::reset, AudioFlinger.cpp
lines 2083-2092: zero the four cursors and clear the system flags
(in particular STEPSERVER_FAILED). -/
def Track.trackBaseReset (t : Track) : Track :=
  { t with
      cblk := { t.cblk with
                  user := 0
                  server := 0
                  userBase := 0
                  serverBase := 0 }
      stepServerFailed := false }

/-- AudioFlinger::PlaybackThread::Track::reset, AudioFlinger.cpp
lines 2327-2340.  Guarded by mResetDone: the reset is not done twice, to
avoid discarding data written just after a flush and before the thread
detects the track is stopped. -/
def Track.reset (t : Track) : Track :=
  if !t.resetDone then
    let t1 := t.trackBaseReset
    { t1 with
        cblk := { t1.cblk with
                    flowControlFlag := true
                    forceReady := false }
        fillingUpStatus := FillStatus.FS_FILLING
        resetDone := true }
  else t

/-- AudioFlinger::PlaybackThread::Track::flush, AudioFlinger.cpp
lines 2303-2325: only in STOPPED, PAUSED or PAUSING; moves the state to
STOPPED and calls reset() under the cblk lock. -/
def Track.flush (t : Track) : Track :=
  if t.state ≠ TrackState.STOPPED ∧ t.state ≠ TrackState.PAUSED ∧
     t.state ≠ TrackState.PAUSING then t
  else
    Track.reset { t with state := TrackState.STOPPED }

/-- Retry count for buffer fill timeout, AudioFlinger.cpp line 71
(`static const int8_t kMaxTrackRetries = 50`). -/
def kMaxTrackRetries : Int := 50

/-- Startup retry count, AudioFlinger.cpp line 72
(`static const int8_t kMaxTrackStartupRetries = 50`). -/
def kMaxTrackStartupRetries : Int := 50

/-- Result of one pass of MixerThread::prepareTracks_l over a single
active track: the updated track, whether it was queued on tracksToRemove
(removal from the active list), and whether it counted towards
enabledTracks. -/
structure PrepareOutcome where
  track : Track
  removed : Bool
  enabled : Bool
deriving DecidableEq, Repr

/-- The per-track body of AudioFlinger::MixerThread::prepareTracks_l,
AudioFlinger.cpp lines 1282-1372, restricted to one track of the active
list.  `masterMute` and `streamMute` are the thread's mMasterMute and
mStreamTypes[track->type()].mute; `bytesWritten` and `minBytesToWrite`
are the thread's mBytesWritten and mMinBytesToWrite (used only by the
static-shared-buffer guard).  Mixer volume programming is pure output and
is not part of the state. -/
def prepareTrackStep (masterMute streamMute : Bool)
    (bytesWritten minBytesToWrite : Nat) (t : Track) : PrepareOutcome :=
  let p := t.prepareCondition
  if p.1 then
    let t1 := p.2
    -- muted/pausing volume branch: a PAUSING track is mixed (at zero
    -- volume) and transitions to PAUSED here (lines 1295-1300)
    let t2 := if t1.isMuted || masterMute || t1.isPausing || streamMute then
                (if t1.isPausing then { t1 with state := TrackState.PAUSED }
                 else t1)
              else t1
    -- FILLED acknowledgement cycle (lines 1317-1325)
    let t3 := if t2.fillingUpStatus == FillStatus.FS_FILLED then
                if t2.state == TrackState.RESUMING then
                  { t2 with fillingUpStatus := FillStatus.FS_ACTIVE,
                            state := TrackState.ACTIVE }
                else { t2 with fillingUpStatus := FillStatus.FS_ACTIVE }
              else t2
    -- reset retry count (line 1343)
    { track := { t3 with retryCount := kMaxTrackRetries },
      removed := false, enabled := true }
  else
    let t1 := p.2
    let t2 := if t1.isStopped then t1.reset else t1
    if t2.isTerminated || t2.isStopped || t2.isPaused then
      -- all buffers consumed: remove from active list (lines 1350-1354)
      { track := t2, removed := true, enabled := false }
    else
      -- no buffers: decrement the retry count, remove at zero
      -- (lines 1358-1361); a static-buffer track that has not yet written
      -- mMinBytesToWrite stays enabled (lines 1366-1370)
      let t3 := { t2 with retryCount := t2.retryCount - 1 }
      { track := t3,
        removed := decide (t3.retryCount ≤ 0),
        enabled := t3.sharedBuffer && !(decide (bytesWritten ≥ minBytesToWrite)) }

/-- Iterate `prepareTrackStep` over `n` mixer cycles in which the track
keeps its (empty) buffer state; models a track that stops producing. -/
def runEmpty (masterMute streamMute : Bool)
    (bytesWritten minBytesToWrite : Nat) (t : Track) : Nat → Track
  | 0 => t
  | n + 1 =>
      (prepareTrackStep masterMute streamMute bytesWritten minBytesToWrite
        (runEmpty masterMute streamMute bytesWritten minBytesToWrite t n)).track

/-- AudioFlinger::PlaybackThread::TrackBase::getBuffer, AudioFlinger.cpp
lines 2107-2123, with pointers expressed as byte offsets from mBuffer.
The C bound checks `bufferStart < mBuffer` and `bufferStart > bufferEnd`
cannot fire in the offset model (Nat arithmetic never goes below mBuffer);
the `bufferEnd > mBufferEnd` check and the frameSize alignment check are
kept (mBuffer itself is frameSize-aligned by the shared-memory
allocator). -/
def Track.getBuffer (t : Track) (offset frames : Nat) : Option Nat :=
  let bufferStart := (offset - t.cblk.serverBase) * t.cblk.frameSize
  let bufferEnd := bufferStart + frames * t.cblk.frameSize
  if bufferEnd ≤ t.bufferSizeBytes ∧ bufferStart % t.cblk.frameSize = 0 then
    some bufferStart
  else none

/-- Result of Track::getNextBuffer: on success, the byte offset of the
contiguous region (the non-null `buffer->raw`) and the actual frame count;
on failure `buffer->raw == 0`, `buffer->frameCount == 0` and status
NOT_ENOUGH_DATA. -/
inductive GNBResult where
  | success (offsetBytes : Nat) (frames : Nat)
  | notEnoughData
deriving DecidableEq, Repr

/-- AudioFlinger::PlaybackThread::Track::getNextBuffer, AudioFlinger.cpp
lines 2207-2246.  The recovery attempt for a pending STEPSERVER_FAILED
calls cblk->stepServer, whose implementation is not in the repository
snapshot (it takes a non-blocking lock and advances the server cursor,
spec §4.1); it is passed in as `stepResult`: `none` when the non-blocking
lock attempt fails again, `some c` with the advanced control block when it
succeeds. -/
def Track.getNextBuffer (stepResult : Option AudioCblk) (t : Track)
    (framesReq0 : Nat) : GNBResult × Track :=
  let recovered : Option Track :=
    if t.stepServerFailed then
      match stepResult with
      | none => none
      | some c => some { t with cblk := c, stepServerFailed := false }
    else some t
  match recovered with
  | none => (GNBResult.notEnoughData, t)
  | some t1 =>
    if t1.cblk.framesReady ≠ 0 then
      let s := t1.cblk.server
      let bufferEnd0 := t1.cblk.serverBase + t1.cblk.frameCount
      let bufferEnd := if t1.cblk.loopEnd < bufferEnd0 then t1.cblk.loopEnd
                       else bufferEnd0
      let framesReq1 := if framesReq0 > t1.cblk.framesReady then
                          t1.cblk.framesReady
                        else framesReq0
      let framesReq := if s + framesReq1 > bufferEnd then bufferEnd - s
                       else framesReq1
      match t1.getBuffer s framesReq with
      | none => (GNBResult.notEnoughData, t1)
      | some off => (GNBResult.success off framesReq, t1)
    else (GNBResult.notEnoughData, t1)

/-- PlaybackThread types (AudioFlinger.h enum, referenced by the .cpp as
MIXER / DIRECT / DUPLICATING). -/
inductive ThreadType where
  | MIXER
  | DIRECT
  | DUPLICATING
deriving DecidableEq, Repr

/-- The parameters of a playback track as recorded in a thread's mTracks
list. -/
structure TrackParams where
  streamType : Nat
  sampleRate : Nat
  format : Nat
  channelCount : Nat
  frameCount : Nat
deriving DecidableEq, Repr

/-- The playback-thread state read and written by createTrack_l. -/
structure PlaybackThreadState where
  ttype : ThreadType
  mSampleRate : Nat
  mFormat : Nat
  mChannelCount : Nat
  outputPresent : Bool
  mTracks : List TrackParams
deriving DecidableEq, Repr

/-- AudioFlinger::PlaybackThread::createTrack_l, AudioFlinger.cpp
lines 922-974.  `cblkOk` models `track->getCblk() != NULL` (shared-memory
allocation success).  Returns the status and the updated thread state. -/
def createTrack_l (th : PlaybackThreadState) (streamType sampleRate format
    channelCount frameCount : Nat) (cblkOk : Bool) :
    Status × PlaybackThreadState :=
  let proceed : Status × PlaybackThreadState :=
    if !th.outputPresent then (Status.NO_INIT, th)
    else if !cblkOk then (Status.NO_MEMORY, th)
    else (Status.NO_ERROR,
          { th with mTracks := th.mTracks ++
              [⟨streamType, sampleRate, format, channelCount, frameCount⟩] })
  if th.ttype == ThreadType.DIRECT then
    if sampleRate != th.mSampleRate || format != th.mFormat ||
       channelCount != th.mChannelCount then
      (Status.BAD_VALUE, th)
    else proceed
  else
    if sampleRate > th.mSampleRate * 2 then (Status.BAD_VALUE, th)
    else proceed

/-- Modelled from the spec: kMaxOverFlowBuffers is declared in
AudioFlinger.h, which is not in the repository snapshot; §4.7 gives its
canonical value 8. -/
def kMaxOverFlowBuffers : Nat := 8

/-- The OutputTrack state touched by OutputTrack::write
(AudioFlinger.cpp lines 2494-2608): the mActive flag, the overflow buffer
queue (each entry recorded by its frame count — the payload bytes do not
matter to any modelled claim), the producer cursor fields of the track's
control block, and the frame count left in mOutBuffer. -/
structure OTState where
  active : Bool
  bufferQueue : List Nat
  cblkUser : Nat
  cblkFrameCount : Nat
  outBufferFrames : Nat
deriving DecidableEq, Repr

/-- AudioFlinger::PlaybackThread::OutputTrack::stop, AudioFlinger.cpp
lines 2486-2492 (Track::stop state change, clearBufferQueue,
mOutBuffer.frameCount = 0, mActive = false), projected onto OTState. -/
def OTState.stop (st : OTState) : OTState :=
  { st with active := false, bufferQueue := [], outBufferFrames := 0 }

/-- One obtainBuffer outcome supplied by the downstream mixer:
`none` models AudioTrack::NO_MORE_BUFFERS (destination ring still full
after the bounded wait), `some (granted, waitMs)` models success granting
`granted` contiguous frames after waiting `waitMs` milliseconds.  The
cursor arithmetic of OutputTrack::obtainBuffer lives partly in
audio_track_cblk_t (not in the snapshot), so its results are treated as an
oracle; the queue-bound claim holds for every oracle. -/
def ObtainOutcome : Type := Option (Nat × Nat)

/-- The obtainBuffer step of the write loop, AudioFlinger.cpp
lines 2538-2553: when mOutBuffer holds no frames, ask the downstream ring
for a buffer (consuming one oracle entry and part of the wait budget);
`none` is the AudioTrack::NO_MORE_BUFFERS outcome. -/
def obtainIfNeeded (oracle : List ObtainOutcome) (waitTimeLeftMs : Nat)
    (st : OTState) : Option (List ObtainOutcome × Nat × OTState) :=
  if st.outBufferFrames = 0 then
    match oracle with
    | some (granted, waitMs) :: rest =>
        some (rest,
              if waitTimeLeftMs ≥ waitMs then waitTimeLeftMs - waitMs
              else 0,
              { st with outBufferFrames := granted })
    | _ => none
  else some (oracle, waitTimeLeftMs, st)

/-- The while loop of OutputTrack::write, AudioFlinger.cpp
lines 2526-2573, with `fuel` bounding the number of iterations (the real
loop is bounded by the wait-time budget and ring progress).  Returns the
state, the frames still left in the caller's buffer (inBuffer.frameCount),
and the outputBufferFull flag. -/
def writeLoop : Nat → List ObtainOutcome → Nat → OTState → Nat →
    OTState × Nat × Bool
  | 0, _, _, st, inFrames => (st, inFrames, false)
  | fuel + 1, oracle, waitTimeLeftMs, st, inFrames =>
    if waitTimeLeftMs = 0 then (st, inFrames, false)
    else
      -- first write pending buffers, then new data (lines 2528-2532)
      let fromQueue := !st.bufferQueue.isEmpty
      let pFrames := if fromQueue then st.bufferQueue.headD 0 else inFrames
      if pFrames = 0 then (st, inFrames, false)
      else
        -- obtain an output buffer when none is left (lines 2538-2553)
        match obtainIfNeeded oracle waitTimeLeftMs st with
        | none => (st, inFrames, true)
        | some (oracle1, wait1, st1) =>
          -- copy and advance cursors (lines 2555-2561)
          let outFrames := min pFrames st1.outBufferFrames
          let st2 := { st1 with
                         cblkUser := st1.cblkUser + outFrames,
                         outBufferFrames := st1.outBufferFrames - outFrames }
          if fromQueue then
            let newHead := pFrames - outFrames
            if newHead = 0 then
              -- release the drained overflow buffer (lines 2563-2568)
              writeLoop fuel oracle1 wait1
                { st2 with bufferQueue := st2.bufferQueue.tail } inFrames
            else
              writeLoop fuel oracle1 wait1
                { st2 with bufferQueue := newHead :: st2.bufferQueue.tail }
                inFrames
          else
            let newIn := inFrames - outFrames
            if newIn = 0 then (st2, 0, false)
            else writeLoop fuel oracle1 wait1 st2 newIn

/-- Start priming of OutputTrack::write, AudioFlinger.cpp
lines 2505-2524: on an inactive track, start() it and queue a silence
buffer of (frameCount − frames) frames if the queue still has room. -/
def primeStep (st : OTState) (frames : Nat) : OTState :=
  if !st.active then
    let stA := { st with active := true }
    if stA.cblkFrameCount > frames then
      if stA.bufferQueue.length < kMaxOverFlowBuffers then
        { stA with bufferQueue :=
            stA.bufferQueue ++ [stA.cblkFrameCount - frames] }
      else stA
    else stA
  else st

/-- Remainder queuing of OutputTrack::write, AudioFlinger.cpp
lines 2576-2588: frames that could not be written are queued for next
time unless the overflow queue is full. -/
def queueRemainder (st : OTState) (remIn : Nat) : OTState :=
  if remIn ≠ 0 then
    if st.bufferQueue.length < kMaxOverFlowBuffers then
      { st with bufferQueue := st.bufferQueue ++ [remIn] }
    else st
  else st

/-- Zero-length-write handling of OutputTrack::write, AudioFlinger.cpp
lines 2593-2605: with no more data coming and no pending buffers, pad the
ring to frameCount with silence, or stop the track when it is full. -/
def flushOrStop (st : OTState) (frames : Nat) : OTState :=
  if frames = 0 ∧ st.bufferQueue.length = 0 then
    if st.cblkUser < st.cblkFrameCount then
      { st with bufferQueue :=
          st.bufferQueue ++ [st.cblkFrameCount - st.cblkUser] }
    else st.stop
  else st

/-- AudioFlinger::PlaybackThread::OutputTrack::write, AudioFlinger.cpp
lines 2494-2608, projected onto OTState.  `waitTimeMs` is the track's
mWaitTimeMs budget; `oracle` and `fuel` drive the inner loop.  Returns the
state and the outputBufferFull result. -/
def OutputTrack.write (oracle : List ObtainOutcome) (fuel waitTimeMs : Nat)
    (st : OTState) (frames : Nat) : OTState × Bool :=
  let st1 := primeStep st frames
  let r := writeLoop fuel oracle waitTimeMs st1 frames
  (flushOrStop (queueRemainder r.1 r.2.1) frames, r.2.2)

/-- Audio formats referenced by the modelled constructors: the two linear
PCM formats of AudioSystem plus a representative non-linear format. -/
inductive AudioFormat where
  | PCM_16_BIT
  | PCM_8_BIT
  | NON_LINEAR
deriving DecidableEq, Repr

/-- Modelled from the spec: AudioSystem::isLinearPCM lives in
AudioSystem.h (not in the snapshot); §1/§6.3 treat exactly 8-bit and
16-bit PCM as the linear formats. -/
def AudioSystem.isLinearPCM (f : AudioFormat) : Bool :=
  f == AudioFormat.PCM_16_BIT || f == AudioFormat.PCM_8_BIT

/-- The cblk->frameSize assignment of the playback Track constructor,
AudioFlinger.cpp line 2154: for linear PCM the frame size is
channelCount * sizeof(int16_t) regardless of 8- or 16-bit format (data is
converted to 16 bit before being stored in the buffer); otherwise
sizeof(int8_t). -/
def Track.initFrameSize (format : AudioFormat) (channelCount : Nat) : Nat :=
  if AudioSystem.isLinearPCM format then channelCount * 2 else 1

/-- The cblk->frameSize assignment of the RecordTrack constructor,
AudioFlinger.cpp lines 2369-2375: 16-bit PCM gets
channelCount * sizeof(int16_t), 8-bit PCM gets
channelCount * sizeof(int8_t), anything else sizeof(int8_t). -/
def RecordTrack.initFrameSize (format : AudioFormat) (channelCount : Nat) :
    Nat :=
  if format == AudioFormat.PCM_16_BIT then channelCount * 2
  else if format == AudioFormat.PCM_8_BIT then channelCount * 1
  else 1

/-- The server-core state relevant to endpoint handle issuance:
mNextThreadId and the key sets of the mPlaybackThreads and mRecordThreads
registries (AudioFlinger constructor initialises mNextThreadId to 0,
AudioFlinger.cpp line 118). -/
structure ServerState where
  mNextThreadId : Nat
  playbackThreads : List Nat
  recordThreads : List Nat
deriving DecidableEq, Repr

/-- Every handle present in either registry. -/
def ServerState.issuedHandles (s : ServerState) : List Nat :=
  s.playbackThreads ++ s.recordThreads

/-- Every handle in the registries is bounded by the handle counter. -/
def ServerState.handlesOk (s : ServerState) : Prop :=
  ∀ h ∈ s.issuedHandles, h ≤ s.mNextThreadId

/-- AudioFlinger::openOutput, AudioFlinger.cpp lines 3248-3307.
`devicesOk` models `pDevices != NULL && *pDevices != 0`; `hwOk` models the
hardware openOutputStream returning a non-null stream.  On success a new
thread is registered under ++mNextThreadId; in every non-early-return case
the function returns mNextThreadId. -/
def AudioFlinger.openOutput (devicesOk hwOk : Bool) (s : ServerState) :
    Nat × ServerState :=
  if !devicesOk then (0, s)
  else if hwOk then
    let id := s.mNextThreadId + 1
    (id, { s with mNextThreadId := id,
                  playbackThreads := s.playbackThreads ++ [id] })
  else (s.mNextThreadId, s)

/-- AudioFlinger::openDuplicateOutput, AudioFlinger.cpp lines 3309-3325.
`bothMixers` models both checkMixerThread_l lookups succeeding. -/
def AudioFlinger.openDuplicateOutput (bothMixers : Bool) (s : ServerState) :
    Nat × ServerState :=
  if !bothMixers then (0, s)
  else
    let id := s.mNextThreadId + 1
    (id, { s with mNextThreadId := id,
                  playbackThreads := s.playbackThreads ++ [id] })

/-- AudioFlinger::openInput, AudioFlinger.cpp lines 3385-3448.
`devicesOk` models the pDevices check; `hwOk` models openInputStream
returning a non-null stream (after the possible retry with proposed
parameters). -/
def AudioFlinger.openInput (devicesOk hwOk : Bool) (s : ServerState) :
    Nat × ServerState :=
  if !devicesOk then (0, s)
  else if hwOk then
    let id := s.mNextThreadId + 1
    (id, { s with mNextThreadId := id,
                  recordThreads := s.recordThreads ++ [id] })
  else (s.mNextThreadId, s)

/-- The master-volume state of the server: mMasterVolume and the
mMasterVolume copy held by each playback thread.  The float values are
modelled as rationals: on the modelled path they are only stored and
propagated, never combined arithmetically. -/
structure VolumeState where
  mMasterVolume : ℚ
  threadMasterVolumes : List ℚ
deriving DecidableEq, Repr

/-- AudioFlinger::setMasterVolume, AudioFlinger.cpp lines 366-386.
`allowed` models settingsAllowed(); `hwAccepts` models
mAudioHardware->setMasterVolume(value) == NO_ERROR, in which case the
software keeps 1.0 and lets the hardware scale. -/
def AudioFlinger.setMasterVolume (allowed hwAccepts : Bool) (value : ℚ)
    (s : VolumeState) : Status × VolumeState :=
  if !allowed then (Status.PERMISSION_DENIED, s)
  else
    let v := if hwAccepts then 1 else value
    (Status.NO_ERROR,
     { mMasterVolume := v,
       threadMasterVolumes := s.threadMasterVolumes.map (fun _ => v) })

/-- AudioFlinger::masterVolume, AudioFlinger.cpp lines 443-446. -/
def AudioFlinger.masterVolume (s : VolumeState) : ℚ :=
  s.mMasterVolume

/-- Modelled from the spec: AudioSystem::NUM_STREAM_TYPES (AudioSystem.h
is not in the snapshot); the era's stream enum has 10 entries. -/
def AudioSystem.NUM_STREAM_TYPES : Int := 10

/-- Modelled from the spec: AudioSystem::ENFORCED_AUDIBLE (AudioSystem.h
is not in the snapshot); the enforced-audible stream index of the era's
enum. -/
def AudioSystem.ENFORCED_AUDIBLE : Int := 7

/-- The stream-mute state of the server: mStreamTypes[*].mute and the
per-playback-thread copies. -/
structure StreamMuteState where
  serverMutes : List Bool
  threadMutes : List (List Bool)
deriving DecidableEq, Repr

/-- AudioFlinger::setStreamMute, AudioFlinger.cpp lines 507-524.
`allowed` models settingsAllowed(). -/
def AudioFlinger.setStreamMute (allowed : Bool) (stream : Int)
    (muted : Bool) (s : StreamMuteState) : Status × StreamMuteState :=
  if !allowed then (Status.PERMISSION_DENIED, s)
  else if stream < 0 ∨ stream ≥ AudioSystem.NUM_STREAM_TYPES ∨
          stream = AudioSystem.ENFORCED_AUDIBLE then
    (Status.BAD_VALUE, s)
  else
    (Status.NO_ERROR,
     { serverMutes := s.serverMutes.set stream.toNat muted,
       threadMutes := s.threadMutes.map (fun tm => tm.set stream.toNat muted) })

/-! Concrete states used by witnesses and counterexamples. -/

/-- A control block with 4-frame buffer, one frame ready, no loop. -/
def cblkOneReady : AudioCblk :=
  { frameCount := 4, user := 1, userBase := 0, server := 0, serverBase := 0,
    loopEnd := 4294967295, forceReady := false, flowControlFlag := true,
    frameSize := 4 }

/-- A filling, active track with one ready frame out of four. -/
def fillingActiveTrack : Track :=
  { state := TrackState.ACTIVE, fillingUpStatus := FillStatus.FS_FILLING,
    cblk := cblkOneReady, retryCount := 50, resetDone := false,
    stepServerFailed := false, sharedBuffer := false, trackMute := false,
    bufferSizeBytes := 16 }

/-- A stopped track that still has FILLING fill status and one ready
frame: reached by start(); a short client write; stop() while in the
active list (stop does not reset a track that is still active). -/
def stoppedFillingTrack : Track :=
  { fillingActiveTrack with state := TrackState.STOPPED }

/-- A filling track whose client has asserted forceReady. -/
def forceReadyTrack : Track :=
  { fillingActiveTrack with
      cblk := { fillingActiveTrack.cblk with forceReady := true } }

/-- A paused track with pending data and an un-reset ring (cursors away
from their bases), as left by pause() mid-playback. -/
def pausedDirtyTrack : Track :=
  { state := TrackState.PAUSED, fillingUpStatus := FillStatus.FS_ACTIVE,
    cblk := { frameCount := 4, user := 7, userBase := 4, server := 6,
              serverBase := 4, loopEnd := 4294967295, forceReady := false,
              flowControlFlag := false, frameSize := 4 },
    retryCount := 50, resetDone := false, stepServerFailed := false,
    sharedBuffer := false, trackMute := false, bufferSizeBytes := 16 }

/-- A stopped track that was already reset by a first flush and then
received five frames from the client (user advanced to 5, resetDone still
true because no start() intervened). -/
def flushedThenWrittenTrack : Track :=
  { state := TrackState.STOPPED, fillingUpStatus := FillStatus.FS_FILLING,
    cblk := { frameCount := 8, user := 5, userBase := 0, server := 0,
              serverBase := 0, loopEnd := 4294967295, forceReady := false,
              flowControlFlag := true, frameSize := 4 },
    retryCount := 50, resetDone := true, stepServerFailed := false,
    sharedBuffer := false, trackMute := false, bufferSizeBytes := 32 }

/-- An active track whose client has stopped producing: no frames ready,
retry counter freshly reset to the steady-state budget. -/
def steadyEmptyTrack : Track :=
  { state := TrackState.ACTIVE, fillingUpStatus := FillStatus.FS_ACTIVE,
    cblk := { frameCount := 4, user := 6, userBase := 4, server := 6,
              serverBase := 4, loopEnd := 4294967295, forceReady := false,
              flowControlFlag := true, frameSize := 4 },
    retryCount := kMaxTrackRetries, resetDone := false,
    stepServerFailed := false, sharedBuffer := false, trackMute := false,
    bufferSizeBytes := 16 }

/-- A newly started track that never produced: startup retry budget. -/
def startupEmptyTrack : Track :=
  { steadyEmptyTrack with
      fillingUpStatus := FillStatus.FS_FILLING,
      retryCount := kMaxTrackStartupRetries,
      cblk := { steadyEmptyTrack.cblk with
                  user := 0, userBase := 0, server := 0, serverBase := 0 } }

/-- A track with two ready frames, used to exercise getNextBuffer. -/
def twoReadyTrack : Track :=
  { state := TrackState.ACTIVE, fillingUpStatus := FillStatus.FS_ACTIVE,
    cblk := { frameCount := 4, user := 3, userBase := 0, server := 1,
              serverBase := 0, loopEnd := 4294967295, forceReady := false,
              flowControlFlag := false, frameSize := 4 },
    retryCount := 50, resetDone := false, stepServerFailed := false,
    sharedBuffer := false, trackMute := false, bufferSizeBytes := 16 }

/-- A track with a pending stepServer failure. -/
def stepFailedTrack : Track :=
  { twoReadyTrack with stepServerFailed := true }

/-- A direct-output playback thread at 44100 Hz, 16-bit stereo. -/
def directThread : PlaybackThreadState :=
  { ttype := ThreadType.DIRECT, mSampleRate := 44100, mFormat := 1,
    mChannelCount := 2, outputPresent := true, mTracks := [] }

/-- A mixer playback thread at 44100 Hz, 16-bit stereo. -/
def mixerThread : PlaybackThreadState :=
  { ttype := ThreadType.MIXER, mSampleRate := 44100, mFormat := 1,
    mChannelCount := 2, outputPresent := true, mTracks := [] }

/-- A fresh server registry. -/
def emptyServer : ServerState :=
  { mNextThreadId := 0, playbackThreads := [], recordThreads := [] }

/-- The server after one successful openOutput (handle 1 issued). -/
def serverAfterOneOutput : ServerState :=
  (AudioFlinger.openOutput true true emptyServer).2

/-- A volume state with two playback threads. -/
def volState2 : VolumeState :=
  { mMasterVolume := 1, threadMasterVolumes := [1, 1] }

/-- A mute state with ten streams and one playback thread. -/
def muteState1 : StreamMuteState :=
  { serverMutes := List.replicate 10 false,
    threadMutes := [List.replicate 10 false] }

/-- An idle duplicating OutputTrack with an empty overflow queue. -/
def otIdle : OTState :=
  { active := false, bufferQueue := [], cblkUser := 0,
    cblkFrameCount := 1024, outBufferFrames := 0 }

/-! Theorems. -/

/-- Claim C5: createTrack_l rejects, with BAD_VALUE and without touching
the thread's track list, (a) any rate/format/channel-count mismatch on a
direct-output thread and (b) any requested sample rate above twice the
endpoint rate on a non-direct (mixer/duplicating) thread. -/
theorem C5_createTrack_rejects (th : PlaybackThreadState)
    (streamType sampleRate format channelCount frameCount : Nat)
    (cblkOk : Bool) :
    (th.ttype = ThreadType.DIRECT →
      (sampleRate ≠ th.mSampleRate ∨ format ≠ th.mFormat ∨
       channelCount ≠ th.mChannelCount) →
      createTrack_l th streamType sampleRate format channelCount frameCount
        cblkOk = (Status.BAD_VALUE, th)) ∧
    (th.ttype ≠ ThreadType.DIRECT →
      sampleRate > th.mSampleRate * 2 →
      createTrack_l th streamType sampleRate format channelCount frameCount
        cblkOk = (Status.BAD_VALUE, th)) := by
  constructor
  · intro hdir hne
    simp only [createTrack_l, hdir, beq_self_eq_true, if_true]
    have : (sampleRate != th.mSampleRate || format != th.mFormat ||
        channelCount != th.mChannelCount) = true := by
      rcases hne with h | h | h <;> simp [h]
    simp [this]
  · intro hdir hrate
    have hb : (th.ttype == ThreadType.DIRECT) = false := by
      simp [hdir]
    simp [createTrack_l, hb, hrate]

/-- Witness for C5 at a 44100 Hz direct thread asked for 48000 Hz, and a
44100 Hz mixer thread asked for 100000 Hz (> 2 × 44100). -/
theorem C5_createTrack_rejects_witness :
    createTrack_l directThread 3 48000 1 2 1024 true =
      (Status.BAD_VALUE, directThread) ∧
    createTrack_l mixerThread 3 100000 1 2 1024 true =
      (Status.BAD_VALUE, mixerThread) :=
  ⟨(C5_createTrack_rejects directThread 3 48000 1 2 1024 true).1 rfl
      (Or.inl (by decide)),
   (C5_createTrack_rejects mixerThread 3 100000 1 2 1024 true).2 (by decide)
      (by decide)⟩

/-- Counterexample for C7: for an 8-bit PCM record track with 2 channels
the code stores frameSize = channelCount * sizeof(int8_t) = 2, not the
claimed channelCount * 2 = 4 (AudioFlinger.cpp line 2372). -/
theorem C7_counterexample :
    ¬ (RecordTrack.initFrameSize AudioFormat.PCM_8_BIT 2 = 2 * 2) := by
  decide

/-- Claim C7 as amended: a playback track created with 8-bit linear PCM
gets frameSize = channelCount * 2 (as if 16-bit), but a record track with
8-bit PCM gets the true 8-bit frame size channelCount * 1; 16-bit PCM
gets channelCount * 2 on both. -/
theorem C7_frameSize (channelCount : Nat) :
    Track.initFrameSize AudioFormat.PCM_8_BIT channelCount =
      channelCount * 2 ∧
    Track.initFrameSize AudioFormat.PCM_16_BIT channelCount =
      channelCount * 2 ∧
    RecordTrack.initFrameSize AudioFormat.PCM_8_BIT channelCount =
      channelCount * 1 ∧
    RecordTrack.initFrameSize AudioFormat.PCM_16_BIT channelCount =
      channelCount * 2 := by
  refine ⟨?_, ?_, ?_, ?_⟩ <;>
    simp [Track.initFrameSize, RecordTrack.initFrameSize,
      AudioSystem.isLinearPCM]

/-- Claim C9: when settings are allowed, setMasterVolume stores and
propagates 1 whenever the hardware accepts the call, and stores and
propagates the requested value only when the hardware rejects it;
masterVolume() then reports the stored value. -/
theorem C9_setMasterVolume (allowed hwAccepts : Bool) (value : ℚ)
    (s : VolumeState) (hall : allowed = true) :
    (hwAccepts = true →
      AudioFlinger.masterVolume
          (AudioFlinger.setMasterVolume allowed hwAccepts value s).2 = 1 ∧
      ∀ v ∈ (AudioFlinger.setMasterVolume allowed hwAccepts value
              s).2.threadMasterVolumes, v = 1) ∧
    (hwAccepts = false →
      AudioFlinger.masterVolume
          (AudioFlinger.setMasterVolume allowed hwAccepts value s).2 =
        value ∧
      ∀ v ∈ (AudioFlinger.setMasterVolume allowed hwAccepts value
              s).2.threadMasterVolumes, v = value) := by
  subst hall
  constructor
  · intro hw
    subst hw
    constructor
    · simp [AudioFlinger.setMasterVolume, AudioFlinger.masterVolume]
    · intro v hv
      simp [AudioFlinger.setMasterVolume] at hv
      obtain ⟨a, _, rfl⟩ := hv
      rfl
  · intro hw
    subst hw
    constructor
    · simp [AudioFlinger.setMasterVolume, AudioFlinger.masterVolume]
    · intro v hv
      simp [AudioFlinger.setMasterVolume] at hv
      obtain ⟨a, _, rfl⟩ := hv
      rfl

/-- Witness for C9: with two playback threads and requested value 2, a
hardware-accepted call reports master volume 1, a hardware-rejected call
reports 2. -/
theorem C9_setMasterVolume_witness :
    AudioFlinger.masterVolume
        (AudioFlinger.setMasterVolume true true 2 volState2).2 = 1 ∧
    AudioFlinger.masterVolume
        (AudioFlinger.setMasterVolume true false 2 volState2).2 = 2 :=
  ⟨((C9_setMasterVolume true true 2 volState2 rfl).1 rfl).1,
   ((C9_setMasterVolume true false 2 volState2 rfl).2 rfl).1⟩

/-- Claim C10: with settings allowed, setStreamMute returns BAD_VALUE and
leaves the whole mute state (server side and every playback thread)
unchanged whenever the stream index is negative, at least
NUM_STREAM_TYPES, or equal to ENFORCED_AUDIBLE. -/
theorem C10_setStreamMute (stream : Int) (muted : Bool)
    (s : StreamMuteState)
    (h : stream < 0 ∨ stream ≥ AudioSystem.NUM_STREAM_TYPES ∨
         stream = AudioSystem.ENFORCED_AUDIBLE) :
    AudioFlinger.setStreamMute true stream muted s = (Status.BAD_VALUE, s) := by
  simp [AudioFlinger.setStreamMute, h]

/-- Witness for C10 at the ENFORCED_AUDIBLE stream (index 7): the mute
request is rejected and the state is untouched, so ENFORCED_AUDIBLE can
never be muted through setStreamMute. -/
theorem C10_setStreamMute_witness :
    AudioFlinger.setStreamMute true 7 true muteState1 =
      (Status.BAD_VALUE, muteState1) :=
  C10_setStreamMute 7 true muteState1 (Or.inr (Or.inr (by decide)))

/-- Counterexample for C1: a stopped track whose fill status is still
FILLING, with only 1 of 4 frames ready and forceReady clear, passes the
mixer's prepare gate (the `|| track->isStopped()` drain path of
AudioFlinger.cpp line 1288), so its audio is consumed although neither
fill-up condition holds. -/
theorem C1_counterexample :
    stoppedFillingTrack.fillingUpStatus = FillStatus.FS_FILLING ∧
    stoppedFillingTrack.cblk.framesReady <
      stoppedFillingTrack.cblk.frameCount ∧
    stoppedFillingTrack.cblk.forceReady = false ∧
    (Track.prepareCondition stoppedFillingTrack).1 = true := by
  decide

/-- Claim C1 as amended: for a track in fill status FILLING that is not
stopped, the mixer's prepare gate stays closed while
framesReady < frameCount and forceReady is clear; and as soon as
framesReady ≥ frameCount or forceReady holds, isReady() returns true,
moves the fill status to FILLED and clears forceReady.  (A stopped track
is drained regardless of its fill status.) -/
theorem C1_fillup_gate (t : Track)
    (hf : t.fillingUpStatus = FillStatus.FS_FILLING)
    (hns : t.state ≠ TrackState.STOPPED) :
    (t.cblk.framesReady < t.cblk.frameCount ∧ t.cblk.forceReady = false →
       (t.prepareCondition).1 = false) ∧
    (t.cblk.framesReady ≥ t.cblk.frameCount ∨ t.cblk.forceReady = true →
       t.isReadyRun.1 = true ∧
       t.isReadyRun.2.fillingUpStatus = FillStatus.FS_FILLED ∧
       t.isReadyRun.2.cblk.forceReady = false) := by
  constructor
  · rintro ⟨hlt, hforce⟩
    have hcond : (t.cblk.framesReady ≥ t.cblk.frameCount ||
        t.cblk.forceReady) = false := by
      simp [hforce]
      omega
    by_cases h0 : t.cblk.framesReady = 0
    · simp [Track.prepareCondition, h0]
    · have hr : t.isReadyRun = (false, t) := by
        simp [Track.isReadyRun, hf, hcond]
      simp [Track.prepareCondition, h0, hr, Track.isStopped, hns]
  · intro hor
    have hcond : (t.cblk.framesReady ≥ t.cblk.frameCount ||
        t.cblk.forceReady) = true := by
      rcases hor with h | h <;> simp [h]
    simp [Track.isReadyRun, hf, hcond]

/-- Witness for C1: the gate is closed for a filling active track with
1 of 4 frames ready; asserting forceReady opens isReady and moves the
fill status to FILLED with forceReady cleared. -/
theorem C1_fillup_gate_witness :
    (Track.prepareCondition fillingActiveTrack).1 = false ∧
    (Track.isReadyRun forceReadyTrack).1 = true ∧
    (Track.isReadyRun forceReadyTrack).2.fillingUpStatus =
      FillStatus.FS_FILLED ∧
    (Track.isReadyRun forceReadyTrack).2.cblk.forceReady = false :=
  ⟨(C1_fillup_gate fillingActiveTrack rfl (by decide)).1 ⟨by decide, rfl⟩,
   (C1_fillup_gate forceReadyTrack rfl (by decide)).2 (Or.inr rfl)⟩

/-- Counterexample for C2: a stopped track already reset by a first flush
(resetDone still true) and then written 5 frames by the client keeps
user = 5 ≠ userBase = 0 across a second flush — the cursors are not reset
because Track::reset refuses to run twice (AudioFlinger.cpp
lines 2329-2338). -/
theorem C2_counterexample :
    flushedThenWrittenTrack.state = TrackState.STOPPED ∧
    (Track.flush flushedThenWrittenTrack).cblk.user = 5 ∧
    (Track.flush flushedThenWrittenTrack).cblk.userBase = 0 := by
  decide

/-- Claim C2 as amended: for a track in STOPPED, PAUSED or PAUSING that
has not already been reset since its last start (resetDone false), flush
moves the state to STOPPED, zeroes all four cursors, sets the
flow-control flag and restores FILLING status; for a track in any other
state flush is a no-op.  (When resetDone is already true the state still
becomes STOPPED but the cursors are deliberately left untouched.) -/
theorem C2_flush_resets (t : Track) :
    ((t.state = TrackState.STOPPED ∨ t.state = TrackState.PAUSED ∨
      t.state = TrackState.PAUSING) → t.resetDone = false →
       t.flush.state = TrackState.STOPPED ∧
       t.flush.cblk.user = 0 ∧ t.flush.cblk.userBase = 0 ∧
       t.flush.cblk.server = 0 ∧ t.flush.cblk.serverBase = 0 ∧
       t.flush.cblk.flowControlFlag = true ∧
       t.flush.fillingUpStatus = FillStatus.FS_FILLING) ∧
    ((t.state ≠ TrackState.STOPPED ∧ t.state ≠ TrackState.PAUSED ∧
      t.state ≠ TrackState.PAUSING) → t.flush = t) := by
  constructor
  · intro hs hr
    have hcond : ¬ (t.state ≠ TrackState.STOPPED ∧
        t.state ≠ TrackState.PAUSED ∧ t.state ≠ TrackState.PAUSING) := by
      rcases hs with h | h | h <;> simp [h]
    simp [Track.flush, hcond, Track.reset, hr, Track.trackBaseReset]
  · intro hs
    simp [Track.flush, hs]

/-- Witness for C2: flushing a paused track with dirty cursors zeroes all
four cursor fields and restores FILLING; flushing an active track changes
nothing. -/
theorem C2_flush_resets_witness :
    ((Track.flush pausedDirtyTrack).state = TrackState.STOPPED ∧
     (Track.flush pausedDirtyTrack).cblk.user = 0 ∧
     (Track.flush pausedDirtyTrack).cblk.userBase = 0 ∧
     (Track.flush pausedDirtyTrack).cblk.server = 0 ∧
     (Track.flush pausedDirtyTrack).cblk.serverBase = 0 ∧
     (Track.flush pausedDirtyTrack).cblk.flowControlFlag = true ∧
     (Track.flush pausedDirtyTrack).fillingUpStatus =
       FillStatus.FS_FILLING) ∧
    Track.flush fillingActiveTrack = fillingActiveTrack :=
  ⟨(C2_flush_resets pausedDirtyTrack).1 (Or.inr (Or.inl rfl)) rfl,
   (C2_flush_resets fillingActiveTrack).2 (by decide)⟩

/-- Counterexample for C8: after one successful openOutput (handle 1), a
second openOutput whose hardware open fails returns 1 — the handle of the
previously created endpoint — because the failure path falls through to
`return mNextThreadId` (AudioFlinger.cpp lines 3288-3306). -/
theorem C8_counterexample :
    (AudioFlinger.openOutput true false serverAfterOneOutput).1 = 1 ∧
    1 ∈ serverAfterOneOutput.issuedHandles ∧
    (AudioFlinger.openOutput true false serverAfterOneOutput).2 =
      serverAfterOneOutput := by
  decide

/-- Helper: a value absent from both side lists occurs exactly once after
being appended. -/
theorem count_append_fresh (l1 l2 : List Nat) (id : Nat)
    (h1 : id ∉ l1) (h2 : id ∉ l2) :
    ((l1 ++ [id]) ++ l2).count id = 1 ∧
    (l1 ++ (l2 ++ [id])).count id = 1 := by
  constructor <;>
    simp [List.count_append, List.count_eq_zero.mpr h1,
      List.count_eq_zero.mpr h2]

/-- Claim C8 as amended: each successful openOutput, openDuplicateOutput
or openInput issues the handle mNextThreadId + 1, strictly greater than
every handle in the registries, keeps the counter bound invariant, and
registers the new thread under that handle exactly once.  (The
monotone/unique part of the claim; the counterexample shows that a call
failing at the hardware-open stage returns the previous endpoint's
handle.) -/
theorem C8_monotone_handles (s : ServerState) (hs : s.handlesOk) :
    ((AudioFlinger.openOutput true true s).1 = s.mNextThreadId + 1 ∧
     (∀ h ∈ s.issuedHandles, h < (AudioFlinger.openOutput true true s).1) ∧
     (AudioFlinger.openOutput true true s).2.handlesOk ∧
     (AudioFlinger.openOutput true true s).2.issuedHandles.count
        (AudioFlinger.openOutput true true s).1 = 1) ∧
    ((AudioFlinger.openDuplicateOutput true s).1 = s.mNextThreadId + 1 ∧
     (∀ h ∈ s.issuedHandles, h < (AudioFlinger.openDuplicateOutput true s).1) ∧
     (AudioFlinger.openDuplicateOutput true s).2.handlesOk ∧
     (AudioFlinger.openDuplicateOutput true s).2.issuedHandles.count
        (AudioFlinger.openDuplicateOutput true s).1 = 1) ∧
    ((AudioFlinger.openInput true true s).1 = s.mNextThreadId + 1 ∧
     (∀ h ∈ s.issuedHandles, h < (AudioFlinger.openInput true true s).1) ∧
     (AudioFlinger.openInput true true s).2.handlesOk ∧
     (AudioFlinger.openInput true true s).2.issuedHandles.count
        (AudioFlinger.openInput true true s).1 = 1) := by
  have hbound : ∀ h : Nat, (h ∈ s.playbackThreads → h ≤ s.mNextThreadId) ∧
      (h ∈ s.recordThreads → h ≤ s.mNextThreadId) := by
    intro h
    constructor <;> intro hm
    · exact hs h (by
        unfold ServerState.issuedHandles
        exact List.mem_append.mpr (Or.inl hm))
    · exact hs h (by
        unfold ServerState.issuedHandles
        exact List.mem_append.mpr (Or.inr hm))
  have hpb : s.mNextThreadId + 1 ∉ s.playbackThreads := by
    intro hmem
    have := (hbound _).1 hmem
    omega
  have hrec : s.mNextThreadId + 1 ∉ s.recordThreads := by
    intro hmem
    have := (hbound _).2 hmem
    omega
  refine ⟨⟨rfl, ?_, ?_, ?_⟩, ⟨rfl, ?_, ?_, ?_⟩, ⟨rfl, ?_, ?_, ?_⟩⟩
  · intro h hmem
    have := hs h hmem
    simp [AudioFlinger.openOutput]
    omega
  · intro h hmem
    simp [AudioFlinger.openOutput, ServerState.issuedHandles] at hmem ⊢
    rcases hmem with hmem | hmem | hmem
    · have := (hbound h).1 hmem
      omega
    · omega
    · have := (hbound h).2 hmem
      omega
  · simpa [AudioFlinger.openOutput, ServerState.issuedHandles] using
      (count_append_fresh s.playbackThreads s.recordThreads
        (s.mNextThreadId + 1) hpb hrec).1
  · intro h hmem
    have := hs h hmem
    simp [AudioFlinger.openDuplicateOutput]
    omega
  · intro h hmem
    simp [AudioFlinger.openDuplicateOutput, ServerState.issuedHandles]
      at hmem ⊢
    rcases hmem with hmem | hmem | hmem
    · have := (hbound h).1 hmem
      omega
    · omega
    · have := (hbound h).2 hmem
      omega
  · simpa [AudioFlinger.openDuplicateOutput, ServerState.issuedHandles] using
      (count_append_fresh s.playbackThreads s.recordThreads
        (s.mNextThreadId + 1) hpb hrec).1
  · intro h hmem
    have := hs h hmem
    simp [AudioFlinger.openInput]
    omega
  · intro h hmem
    simp [AudioFlinger.openInput, ServerState.issuedHandles] at hmem ⊢
    rcases hmem with hmem | hmem | hmem
    · have := (hbound h).1 hmem
      omega
    · have := (hbound h).2 hmem
      omega
    · omega
  · simpa [AudioFlinger.openInput, ServerState.issuedHandles] using
      (count_append_fresh s.playbackThreads s.recordThreads
        (s.mNextThreadId + 1) hpb hrec).2

/-- Witness for C8 at a registry holding handle 1: the next successful
openOutput issues handle 2, greater than handle 1, registered once. -/
theorem C8_monotone_handles_witness :
    (AudioFlinger.openOutput true true serverAfterOneOutput).1 = 2 ∧
    (AudioFlinger.openOutput true true
        serverAfterOneOutput).2.issuedHandles.count 2 = 1 :=
  ⟨(C8_monotone_handles serverAfterOneOutput (by
      unfold ServerState.handlesOk ServerState.issuedHandles
      decide)).1.1,
   (C8_monotone_handles serverAfterOneOutput (by
      unfold ServerState.handlesOk ServerState.issuedHandles
      decide)).1.2.2.2⟩

/-- Helper: one prepareTracks_l pass over an active, non-terminal,
non-stopped, non-paused track with no ready frames decrements the retry
counter and removes the track exactly when the counter has reached
zero. -/
theorem prepareTrackStep_empty (mm sm : Bool) (bw mb : Nat) (u : Track)
    (hready : u.cblk.framesReady = 0)
    (ht : u.state ≠ TrackState.TERMINATED)
    (hs : u.state ≠ TrackState.STOPPED)
    (hp : u.state ≠ TrackState.PAUSED) :
    prepareTrackStep mm sm bw mb u =
      { track := { u with retryCount := u.retryCount - 1 },
        removed := decide (u.retryCount - 1 ≤ 0),
        enabled := u.sharedBuffer && !(decide (bw ≥ mb)) } := by
  simp [prepareTrackStep, Track.prepareCondition, hready, Track.isStopped,
    Track.isTerminated, Track.isPaused, hs, ht, hp]

/-- Helper: n consecutive empty mixer cycles leave such a track unchanged
except for the retry counter, which drops by n. -/
theorem runEmpty_retryCount (mm sm : Bool) (bw mb : Nat) (t : Track)
    (hready : t.cblk.framesReady = 0)
    (ht : t.state ≠ TrackState.TERMINATED)
    (hs : t.state ≠ TrackState.STOPPED)
    (hp : t.state ≠ TrackState.PAUSED) :
    ∀ n : Nat, runEmpty mm sm bw mb t n =
      { t with retryCount := t.retryCount - n } := by
  intro n
  induction n with
  | zero => simp [runEmpty]
  | succ n ih =>
      rw [runEmpty, ih,
        prepareTrackStep_empty mm sm bw mb
          { t with retryCount := t.retryCount - n }
          (by simpa using hready) (by simpa using ht) (by simpa using hs)
          (by simpa using hp)]
      simp only []
      congr 1
      push_cast
      ring

/-- Counterexample for C3: the startup retry budget is not larger than
the steady-state budget — AudioFlinger.cpp lines 71-72 set both
kMaxTrackRetries and kMaxTrackStartupRetries to 50. -/
theorem C3_counterexample :
    ¬ (kMaxTrackRetries < kMaxTrackStartupRetries) ∧
    kMaxTrackStartupRetries = kMaxTrackRetries := by
  decide

/-- Claim C3 as amended: a successful mix resets the retry counter to
kMaxTrackRetries; an active non-terminal track that is empty on every
cycle is kept for the first kMaxTrackRetries − 1 empty pulls and removed
from the active list on exactly the kMaxTrackRetries-th (and likewise
with kMaxTrackStartupRetries before the first mix) — but the startup
budget equals the steady-state budget (both 50) instead of being
larger. -/
theorem C3_retry_eviction (mm sm : Bool) (bw mb : Nat) (t : Track)
    (hready : t.cblk.framesReady = 0)
    (hA : t.state = TrackState.ACTIVE) :
    (∀ u : Track, (u.prepareCondition).1 = true →
       (prepareTrackStep mm sm bw mb u).track.retryCount =
         kMaxTrackRetries) ∧
    (t.retryCount = kMaxTrackRetries →
       ∀ n : Nat,
         ((n : Int) + 1 < kMaxTrackRetries →
            (prepareTrackStep mm sm bw mb
              (runEmpty mm sm bw mb t n)).removed = false) ∧
         ((n : Int) + 1 = kMaxTrackRetries →
            (prepareTrackStep mm sm bw mb
              (runEmpty mm sm bw mb t n)).removed = true)) ∧
    (t.retryCount = kMaxTrackStartupRetries →
       ∀ n : Nat,
         ((n : Int) + 1 < kMaxTrackStartupRetries →
            (prepareTrackStep mm sm bw mb
              (runEmpty mm sm bw mb t n)).removed = false) ∧
         ((n : Int) + 1 = kMaxTrackStartupRetries →
            (prepareTrackStep mm sm bw mb
              (runEmpty mm sm bw mb t n)).removed = true)) := by
  have ht : t.state ≠ TrackState.TERMINATED := by rw [hA]; decide
  have hs : t.state ≠ TrackState.STOPPED := by rw [hA]; decide
  have hp : t.state ≠ TrackState.PAUSED := by rw [hA]; decide
  have hstep : ∀ n : Nat,
      (prepareTrackStep mm sm bw mb (runEmpty mm sm bw mb t n)).removed =
        decide (t.retryCount - n - 1 ≤ 0) := by
    intro n
    rw [runEmpty_retryCount mm sm bw mb t hready ht hs hp n,
      prepareTrackStep_empty mm sm bw mb
        { t with retryCount := t.retryCount - n }
        (by simpa using hready) (by simpa using ht) (by simpa using hs)
        (by simpa using hp)]
  refine ⟨?_, ?_, ?_⟩
  · intro u hcond
    simp [prepareTrackStep, hcond]
  · intro hk n
    rw [hk] at hstep
    constructor <;> intro hn <;> rw [hstep n] <;>
      simp only [kMaxTrackRetries, decide_eq_false_iff_not,
        decide_eq_true_eq] at hn ⊢ <;> omega
  · intro hk n
    rw [hk] at hstep
    constructor <;> intro hn <;> rw [hstep n] <;>
      simp only [kMaxTrackRetries, kMaxTrackStartupRetries,
        decide_eq_false_iff_not, decide_eq_true_eq] at hn ⊢ <;> omega

/-- Witness for C3: a steady-state empty track survives its first empty
pull and is removed on the 50th; a startup-budget track likewise. -/
theorem C3_retry_eviction_witness :
    (prepareTrackStep false false 0 0
        (runEmpty false false 0 0 steadyEmptyTrack 0)).removed = false ∧
    (prepareTrackStep false false 0 0
        (runEmpty false false 0 0 steadyEmptyTrack 49)).removed = true ∧
    (prepareTrackStep false false 0 0
        (runEmpty false false 0 0 startupEmptyTrack 49)).removed = true :=
  ⟨((C3_retry_eviction false false 0 0 steadyEmptyTrack rfl rfl).2.1
      rfl 0).1 (by decide),
   ((C3_retry_eviction false false 0 0 steadyEmptyTrack rfl rfl).2.1
      rfl 49).2 (by decide),
   ((C3_retry_eviction false false 0 0 startupEmptyTrack rfl rfl).2.2
      rfl 49).2 (by decide)⟩

/-- Claim C4: getNextBuffer either succeeds with a contiguous region and
an actual frame count bounded by the request, by the frames ready
(user − server), and by the effective buffer end
min(serverBase + frameCount, loopEnd); or fails with NOT_ENOUGH_DATA
(null pointer, zero frames) — in particular when no frames are ready or
when a pending stepServer failure cannot be recovered.  The two cursor
hypotheses are the SCB invariants of spec §3/§8. -/
theorem C4_getNextBuffer (t : Track) (stepResult : Option AudioCblk)
    (framesReq0 : Nat) :
    (t.stepServerFailed = true → stepResult = none →
       (Track.getNextBuffer stepResult t framesReq0).1 =
         GNBResult.notEnoughData) ∧
    (t.stepServerFailed = false →
       (t.cblk.framesReady = 0 →
          (Track.getNextBuffer stepResult t framesReq0).1 =
            GNBResult.notEnoughData) ∧
       (t.cblk.server ≤ t.cblk.serverBase + t.cblk.frameCount →
        t.cblk.server ≤ t.cblk.loopEnd →
        ∀ off n, (Track.getNextBuffer stepResult t framesReq0).1 =
            GNBResult.success off n →
          n ≤ framesReq0 ∧ n ≤ t.cblk.framesReady ∧
          t.cblk.server + n ≤ t.cblk.serverBase + t.cblk.frameCount ∧
          t.cblk.server + n ≤ t.cblk.loopEnd)) := by
  refine ⟨?_, ?_⟩
  · intro hsf hstep
    simp [Track.getNextBuffer, hsf, hstep]
  · intro hsf
    refine ⟨?_, ?_⟩
    · intro hready
      simp [Track.getNextBuffer, hsf, hready]
    · intro hbe hle off n hsucc
      simp only [Track.getNextBuffer, hsf, Bool.false_eq_true, if_false]
        at hsucc
      split at hsucc
      case isTrue h0 =>
        split at hsucc
        case h_1 => simp at hsucc
        case h_2 off1 heq =>
          simp only [GNBResult.success.injEq] at hsucc
          obtain ⟨-, rfl⟩ := hsucc
          simp only [AudioCblk.framesReady] at h0 ⊢
          split_ifs with h1 h2 h2 <;> omega
      case isFalse h0 => simp at hsucc

/-- Witness for C4: an unrecoverable step failure yields NOT_ENOUGH_DATA;
a track with zero ready frames yields NOT_ENOUGH_DATA; a track with 2
ready frames asked for 10 satisfies all three bounds. -/
theorem C4_getNextBuffer_witness :
    (Track.getNextBuffer none stepFailedTrack 10).1 =
      GNBResult.notEnoughData ∧
    (Track.getNextBuffer none steadyEmptyTrack 10).1 =
      GNBResult.notEnoughData ∧
    (2 ≤ 10 ∧ 2 ≤ twoReadyTrack.cblk.framesReady ∧
     twoReadyTrack.cblk.server + 2 ≤
       twoReadyTrack.cblk.serverBase + twoReadyTrack.cblk.frameCount ∧
     twoReadyTrack.cblk.server + 2 ≤ twoReadyTrack.cblk.loopEnd) :=
  ⟨(C4_getNextBuffer stepFailedTrack none 10).1 rfl rfl,
   ((C4_getNextBuffer steadyEmptyTrack none 10).2 rfl).1 rfl,
   ((C4_getNextBuffer twoReadyTrack none 10).2 rfl).2 (by decide) (by decide)
     4 2 (by decide)⟩

/-- Helper: a successful obtainBuffer step leaves the overflow queue
untouched (it only refills mOutBuffer and spends wait budget). -/
theorem obtainIfNeeded_queue (oracle : List ObtainOutcome) (wait : Nat)
    (st : OTState) (r : List ObtainOutcome × Nat × OTState)
    (heq : obtainIfNeeded oracle wait st = some r) :
    r.2.2.bufferQueue = st.bufferQueue := by
  unfold obtainIfNeeded at heq
  split at heq
  · rcases oracle with _ | ⟨o, rest⟩
    · simp at heq
    · rcases o with _ | ⟨g, w⟩
      · simp at heq
      · simp only at heq
        cases heq
        rfl
  · cases heq
    rfl

/-- Helper: the write loop never grows the overflow queue — each
iteration either leaves it alone, shrinks it, or replaces its head. -/
theorem writeLoop_queue_le (fuel : Nat) :
    ∀ (oracle : List ObtainOutcome) (wait : Nat) (st : OTState) (inF : Nat),
      ((writeLoop fuel oracle wait st inF).1).bufferQueue.length ≤
        st.bufferQueue.length := by
  induction fuel with
  | zero =>
      intro oracle wait st inF
      simp [writeLoop]
  | succ fuel ih =>
      intro oracle wait st inF
      simp only [writeLoop]
      by_cases hw : wait = 0
      · simp [hw]
      rw [if_neg hw]
      rcases hob : obtainIfNeeded oracle wait st with _ | ⟨oracle1, wait1, st1⟩
        <;> by_cases hq0 : st.bufferQueue.isEmpty
      · simp [hq0, hob]
        split <;> simp
      · simp only [hq0, Bool.not_false, if_pos, hob]
        split <;> simp
      · -- empty queue: the data comes from the caller's buffer
        have hq1 : st1.bufferQueue = st.bufferQueue := by
          simpa using obtainIfNeeded_queue oracle wait st _ hob
        simp only [hq0, Bool.not_true, Bool.false_eq_true, if_false, hob]
        split
        · simp
        · split
          · simp [hq1]
          · exact le_trans (ih _ _ _ _) (by simp [hq1])
      · -- non-empty queue: head is drained or replaced
        have hq1 : st1.bufferQueue = st.bufferQueue := by
          simpa using obtainIfNeeded_queue oracle wait st _ hob
        have hne : st.bufferQueue ≠ [] := by
          simpa [List.isEmpty_iff] using hq0
        have hpos : 0 < st.bufferQueue.length := List.length_pos.mpr hne
        simp only [hq0, Bool.not_false, if_pos, hob]
        split
        · simp
        · split
          · refine le_trans (ih _ _ _ _) ?_
            simp [hq1]
          · refine le_trans (ih _ _ _ _) ?_
            simp [hq1]
            omega

/-- Helper: start priming respects the overflow bound. -/
theorem primeStep_bound (st : OTState) (frames : Nat)
    (h : st.bufferQueue.length ≤ kMaxOverFlowBuffers) :
    (primeStep st frames).bufferQueue.length ≤ kMaxOverFlowBuffers := by
  unfold primeStep
  simp only [kMaxOverFlowBuffers] at *
  split_ifs <;> simp_all <;> omega

/-- Helper: queuing the unwritable remainder respects the overflow
bound. -/
theorem queueRemainder_bound (st : OTState) (remIn : Nat)
    (h : st.bufferQueue.length ≤ kMaxOverFlowBuffers) :
    (queueRemainder st remIn).bufferQueue.length ≤ kMaxOverFlowBuffers := by
  unfold queueRemainder
  simp only [kMaxOverFlowBuffers] at *
  split_ifs <;> simp_all <;> omega

/-- Helper: the zero-length-write handling respects the overflow bound
(it appends only to an empty queue, or stops the track). -/
theorem flushOrStop_bound (st : OTState) (frames : Nat)
    (h : st.bufferQueue.length ≤ kMaxOverFlowBuffers) :
    (flushOrStop st frames).bufferQueue.length ≤ kMaxOverFlowBuffers := by
  unfold flushOrStop
  simp only [kMaxOverFlowBuffers] at *
  split_ifs with hc hu
  · simp
    omega
  · simp [OTState.stop]
  · exact h

/-- Claim C6: every write() keeps the overflow queue within
kMaxOverFlowBuffers entries — the two append paths are guarded by the
bound check and the zero-length flush path appends only to an empty
queue — and stop() empties the queue. -/
theorem C6_overflow_bound (oracle : List ObtainOutcome)
    (fuel waitTimeMs : Nat) (st : OTState) (frames : Nat)
    (h : st.bufferQueue.length ≤ kMaxOverFlowBuffers) :
    (OutputTrack.write oracle fuel waitTimeMs st
        frames).1.bufferQueue.length ≤ kMaxOverFlowBuffers ∧
    (OTState.stop st).bufferQueue.length ≤ kMaxOverFlowBuffers := by
  constructor
  · have h2 : ((writeLoop fuel oracle waitTimeMs (primeStep st frames)
        frames).1).bufferQueue.length ≤ kMaxOverFlowBuffers :=
      le_trans (writeLoop_queue_le fuel _ _ _ _)
        (primeStep_bound st frames h)
    exact flushOrStop_bound _ _ (queueRemainder_bound _ _ h2)
  · simp [OTState.stop, kMaxOverFlowBuffers]

/-- Witness for C6: a write of 100 frames on an idle OutputTrack with an
empty queue (downstream grants nothing) keeps the queue within bound. -/
theorem C6_overflow_bound_witness :
    (OutputTrack.write [] 4 10 otIdle 100).1.bufferQueue.length ≤
      kMaxOverFlowBuffers ∧
    (OTState.stop otIdle).bufferQueue.length ≤ kMaxOverFlowBuffers :=
  C6_overflow_bound [] 4 10 otIdle 100 (by decide)

end AudioFlingerModel
